import Mathlib

/-!
Shallow embedding of `src/index.ts` of the pdfdancer-mcp server.

The file embeds, straight from the TypeScript source:
  * the sparse query-string assembly and request construction of `callApi`
    (lines 92-113), with `URLSearchParams.set` semantics;
  * the response handling of `callApi` (lines 115-134), parameterised by the
    platform JSON parser;
  * the formatter `summarizeSearchResponse` (lines 141-154), with JS
    `String.prototype.trim` and `Number.prototype.toFixed(3)` modelled
    explicitly (JS numbers are modelled as `Int` where the code treats them as
    integers, and scores as `Rat`);
  * the argument handling of the `dcs-get-content` and `dcs-search` tools
    (the zod schemas and handler bodies, lines 370-408 and 452-466);
  * the base-URL resolution (lines 8-11).

Effectful pieces (the actual `fetch`, the MCP transport) are external to the
repository; a `callApi` invocation is modelled as the `RequestSpec` value it
sends plus the pure function from the received `HttpResponse` to its result.
-/

/-- HTTP methods accepted by `callApi` (`type HttpMethod = 'GET' | 'POST'`). -/
inductive HttpMethod where
  | GET
  | POST
deriving DecidableEq

/-- a JSON-serialisable JavaScript value, as far as the embedded code needs it
(JS numbers restricted to integers; claims never exercise fractional bodies). -/
inductive Jv where
  | null
  | bool (b : Bool)
  | num (n : Int)
  | str (s : String)
  | arr (elems : List Jv)
  | obj (fields : List (String × Jv))

/-- JavaScript truthiness of a `Jv` (`undefined` is represented as `none` at
the `Option Jv` use sites). -/
def jvTruthy : Jv → Bool
  | Jv.null => false
  | Jv.bool b => b
  | Jv.num n => decide (n ≠ 0)
  | Jv.str s => decide (s ≠ "")
  | Jv.arr _ => true
  | Jv.obj _ => true

/-- truthiness of `options.body : unknown`, where `none` is an absent or
`undefined` property. -/
def optBodyTruthy : Option Jv → Bool
  | some v => jvTruthy v
  | none => false

/-- a value of `options.searchParams`: `string | number | undefined | null`. -/
inductive SPVal where
  | str (s : String)
  | num (n : Int)
  | undef
  | null
deriving DecidableEq

/-- the filter `value !== undefined && value !== null && value !== ''` of
`callApi`'s `forEach` (line 96). -/
def spKeep : SPVal → Bool
  | SPVal.str s => decide (s ≠ "")
  | SPVal.num _ => true
  | SPVal.undef => false
  | SPVal.null => false

/-- `String(value)` for a searchParams value (only reached on kept values). -/
def spToString : SPVal → String
  | SPVal.str s => s
  | SPVal.num n => toString n
  | SPVal.undef => "undefined"
  | SPVal.null => "null"

/-- `url.searchParams.set key value`: replaces the first pair with that key and
deletes the other pairs with it, or appends when the key is absent. -/
def setParam : List (String × String) → String → String → List (String × String)
  | [], k, v => [(k, v)]
  | (k', v') :: rest, k, v =>
      if k' = k then (k, v) :: rest.filter (fun p => decide (p.1 ≠ k))
      else (k', v') :: setParam rest k v

/-- the query accumulated by `callApi`'s `Object.entries(...).forEach` loop
(lines 95-99): entries in insertion order, sparse values skipped. -/
def buildQuery (ps : List (String × SPVal)) : List (String × String) :=
  ps.foldl
    (fun acc kv => if spKeep kv.2 then setParam acc kv.1 (spToString kv.2) else acc)
    []

/-- `ApiRequestOptions` of the source: optional method (GET default applied in
`callApi`), optional searchParams record (as an entry list in key insertion
order), optional body. -/
structure ApiRequestOptions where
  method : Option HttpMethod := none
  searchParams : Option (List (String × SPVal)) := none
  body : Option Jv := none

/-- the outgoing request assembled by `callApi` before `fetch` (lines 93-113):
resolved path, final query pairs, method, whether the
`Content-Type: application/json` header is declared, and the attached body. -/
structure RequestSpec where
  path : String
  query : List (String × String)
  method : HttpMethod
  contentTypeJson : Bool
  body : Option Jv

/-- request construction of `callApi` (lines 93-113): query from the sparse
rule, `options.method ?? 'GET'`, the JSON content-type header exactly when
`options.body` is truthy, and `init.body` only when the body is truthy and the
method is POST. -/
def callApiRequest (path : String) (options : ApiRequestOptions) : RequestSpec :=
  let query :=
    match options.searchParams with
    | some ps => buildQuery ps
    | none => []
  let method := options.method.getD HttpMethod.GET
  { path := path
    query := query
    method := method
    contentTypeJson := optBodyTruthy options.body
    body :=
      if optBodyTruthy options.body && decide (method = HttpMethod.POST) then options.body
      else none }

/-- the HTTP response as `callApi` observes it: `response.ok`,
`response.status`, `response.statusText`, and the body read as text. -/
structure HttpResponse where
  ok : Bool
  status : Nat
  statusText : String
  text : String

/-- response handling of `callApi` (lines 115-134), parameterised by the
platform JSON parser (`JSON.parse` with its diagnostic rendered to a string):
non-ok statuses raise the request-failed error, an empty body yields
`undefined` (here `none`), and a parse failure raises the parse error. -/
def handleResponse (parseJson : String → Except String Jv) (url : String)
    (resp : HttpResponse) : Except String (Option Jv) :=
  if resp.ok = false then
    Except.error
      ("Request to " ++ url ++ " failed with status " ++ toString resp.status ++ ": " ++
        (if resp.text = "" then resp.statusText else resp.text))
  else if resp.text = "" then
    Except.ok none
  else
    match parseJson resp.text with
    | Except.ok v => Except.ok (some v)
    | Except.error e =>
        Except.error ("Failed to parse JSON response from " ++ url ++ ": " ++ e)

/-- substring containment, used to state what an error message carries. -/
def strContains (s sub : String) : Prop :=
  ∃ pre post, s = pre ++ sub ++ post

/-- the first line of a string: its characters up to the first newline. -/
def firstLine (s : String) : String :=
  String.mk (s.data.takeWhile (fun c => decide (c ≠ '\n')))

/-- JS `String.prototype.trim`: drop leading and trailing whitespace. `Char.isWhitespace`
covers space, tab, CR, LF; JS additionally trims some Unicode space characters,
which no claim exercises. -/
def jsTrim (s : String) : String :=
  String.mk (((s.data.dropWhile Char.isWhitespace).reverse.dropWhile Char.isWhitespace).reverse)

/-- `SearchResult` of the source; `sectionTitle: string | null` and the absent
case collapse to `none`, which matches how `??` treats both. Scores are JS
numbers, modelled as rationals. -/
structure SearchResult where
  id : Int
  pageTitle : Option String := none
  sectionTitle : Option String := none
  sectionRoute : String
  sectionContent : Option String := none
  type : Option String := none
  score : Option Rat := none

/-- `SearchResponse` of the source (`total` and `took` are JS numbers used as
integers). -/
structure SearchResponse where
  results : List SearchResult
  total : Int
  query : String
  took : Int

/-- three decimal digits with leading zeros, the fractional part rendered by
`toFixed(3)`. -/
def pad3 (m : Nat) : String :=
  String.mk [Nat.digitChar (m / 100 % 10), Nat.digitChar (m / 10 % 10), Nat.digitChar (m % 10)]

/-- rounding half away from zero at the third decimal, scaled by 1000, as
`toFixed(3)` does. -/
def jsRound3 (q : Rat) : Int :=
  if 0 ≤ q then Rat.floor (q * 1000 + 1 / 2) else -Rat.floor (-q * 1000 + 1 / 2)

/-- JS `Number.prototype.toFixed(3)` on rationals: round half away from zero at
the third decimal, then render with exactly three fractional digits. -/
def toFixed3 (q : Rat) : String :=
  (if jsRound3 q < 0 then "-" else "") ++ toString ((jsRound3 q).natAbs / 1000) ++ "." ++
    pad3 ((jsRound3 q).natAbs % 1000)

/-- the display title `result.pageTitle ?? result.sectionTitle ?? result.sectionRoute`
(line 147). -/
def displayTitle (r : SearchResult) : String :=
  (r.pageTitle.or r.sectionTitle).getD r.sectionRoute

/-- the score fragment of a result line:
`typeof result.score === 'number' ? 'score=' + score.toFixed(3) : ''` (line 148). -/
def scorePart (r : SearchResult) : String :=
  match r.score with
  | some q => "score=" ++ toFixed3 q
  | none => ""

/-- one ranked line of the summary (line 149), with the trailing `.trim()`. -/
def resultLine (index : Nat) (r : SearchResult) : String :=
  jsTrim
    (toString (index + 1) ++ ". " ++ displayTitle r ++ " → " ++ r.sectionRoute ++ " " ++
      scorePart r)

/-- the local `lines` of `summarizeSearchResponse`:
`data.results.slice(0, 5).map(...)` (line 146). -/
def summaryLines (data : SearchResponse) : List String :=
  List.mapIdx resultLine (data.results.take 5)

/-- the local `summary` of `summarizeSearchResponse` (line 152). -/
def summaryHeader (data : SearchResponse) (lines : List String) : String :=
  toString data.total ++ " result(s) for \"" ++ data.query ++ "\" (showing " ++
    toString lines.length ++ ", " ++ toString data.took ++ "ms)."

/-- `summarizeSearchResponse` (lines 141-154). -/
def summarizeSearchResponse (data : SearchResponse) : String :=
  if data.results.isEmpty then "No matches for \"" ++ data.query ++ "\"."
  else
    let lines := summaryLines data
    summaryHeader data lines ++ "\n" ++ String.intercalate "\n" lines

/-- the `method` enum of the `dcs-search` schema (`z.enum(['get', 'post'])`,
default `get` already applied by the schema before the handler runs). -/
inductive SearchMethod where
  | get
  | post
deriving DecidableEq

/-- the POST payload `{ query, tag, maxResults }` as `JSON.stringify` serialises
it: properties whose value is `undefined` are omitted. -/
def searchPayload (query : String) (tag : Option String) (maxResults : Option Int) : Jv :=
  Jv.obj
    (("query", Jv.str query) ::
      ((match tag with | some t => [("tag", Jv.str t)] | none => []) ++
        (match maxResults with | some n => [("maxResults", Jv.num n)] | none => [])))

/-- an optional string argument as a searchParams value (`undefined` when absent). -/
def optStrSP : Option String → SPVal
  | some s => SPVal.str s
  | none => SPVal.undef

/-- an optional integer argument as a searchParams value (`undefined` when absent). -/
def optIntSP : Option Int → SPVal
  | some n => SPVal.num n
  | none => SPVal.undef

/-- the `dcs-search` schema constraints on the arguments the claims vary:
`query: z.string().min(1)` and `maxResults: z.number().int().min(1).max(100).optional()`. -/
def dcsSearchArgsValid (query : String) (maxResults : Option Int) : Bool :=
  decide (query ≠ "") &&
    (match maxResults with
     | some n => decide (1 ≤ n) && decide (n ≤ 100)
     | none => true)

/-- the single `callApi` request issued by the `dcs-search` handler
(lines 382-396): POST `/search` with the JSON payload when `method` is `post`,
otherwise GET `/search` with the sparse query parameters `q`, `tag`,
`maxResults`. -/
def dcsSearchRequest (query : String) (tag : Option String) (maxResults : Option Int)
    (method : SearchMethod) : RequestSpec :=
  if method = SearchMethod.post then
    callApiRequest "/search"
      { method := some HttpMethod.POST, body := some (searchPayload query tag maxResults) }
  else
    callApiRequest "/search"
      { searchParams :=
          some [("q", SPVal.str query), ("tag", optStrSP tag), ("maxResults", optIntSP maxResults)] }

/-- the `route` schema of `dcs-get-content`: the regex `^\/.*` (zod
`z.string().regex`, line 458) accepts exactly the strings whose first
character is `/`. -/
def routeSchemaAccepts (route : String) : Bool :=
  match route.data with
  | [] => false
  | c :: _ => decide (c = '/')

/-- a `dcs-get-content` invocation: the MCP SDK validates the input schema
before the handler runs, so a rejected `route` yields the schema error and no
`RequestSpec` (hence no outbound request); an accepted one reaches the handler,
which issues the single GET `/content?route=...` call (lines 452-466). -/
def dcsGetContentInvoke (route : String) : Except String RequestSpec :=
  if routeSchemaAccepts route then
    Except.ok (callApiRequest "/content" { searchParams := some [("route", SPVal.str route)] })
  else
    Except.error "route must start with /"

/-- the hard-coded default base URL (line 11). -/
def defaultBaseUrl : String :=
  "https://docusaurus-cloudflare-search.michael-lahr-0b0.workers.dev/"

/-- `rawBaseUrl` resolution (lines 8-11): `process.env.DCS_BASE_URL ??
process.env.DOCUSAURUS_SEARCH_BASE_URL ?? default`, over an environment mapping
variable names to optionally present string values (`??` skips only the absent
case; an empty string is a present value and wins). -/
def rawBaseUrl (env : String → Option String) : String :=
  (env "DCS_BASE_URL").getD ((env "DOCUSAURUS_SEARCH_BASE_URL").getD defaultBaseUrl)

/-- the contribution of one searchParams entry to the final query. -/
def sparseEntry (kv : String × SPVal) : Option (String × String) :=
  if spKeep kv.2 then some (kv.1, spToString kv.2) else none

theorem setParam_append (acc : List (String × String)) (k v : String)
    (h : k ∉ acc.map Prod.fst) : setParam acc k v = acc ++ [(k, v)] := by
  induction acc with
  | nil => rfl
  | cons p rest ih =>
      obtain ⟨a, b⟩ := p
      simp only [List.map_cons, List.mem_cons] at h
      push_neg at h
      simp only [setParam]
      rw [if_neg fun hk => h.1 hk.symm, ih h.2]
      rfl

theorem buildQuery_go (ps : List (String × SPVal)) (acc : List (String × String))
    (hnd : (ps.map Prod.fst).Nodup)
    (hdisj : ∀ k, k ∈ ps.map Prod.fst → k ∉ acc.map Prod.fst) :
    List.foldl
        (fun acc kv => if spKeep kv.2 then setParam acc kv.1 (spToString kv.2) else acc)
        acc ps
      = acc ++ ps.filterMap sparseEntry := by
  induction ps generalizing acc with
  | nil => simp
  | cons kv rest ih =>
      obtain ⟨k, v⟩ := kv
      simp only [List.map_cons, List.nodup_cons] at hnd
      rw [List.foldl_cons]
      by_cases hk : spKeep v = true
      · have hknotin : k ∉ acc.map Prod.fst := hdisj k (by simp)
        have hd2 : ∀ k', k' ∈ rest.map Prod.fst →
            k' ∉ (acc ++ [(k, spToString v)]).map Prod.fst := by
          intro k' hk'
          simp only [List.map_append, List.mem_append, List.map_cons, List.map_nil,
            List.mem_singleton]
          push_neg
          constructor
          · exact hdisj k' (by simp [hk'])
          · intro he
            exact hnd.1 (he ▸ hk')
        simp only [hk, if_true]
        rw [setParam_append acc k (spToString v) hknotin,
          ih (acc ++ [(k, spToString v)]) hnd.2 hd2]
        simp [sparseEntry, hk, List.filterMap_cons]
      · have hd2 : ∀ k', k' ∈ rest.map Prod.fst → k' ∉ acc.map Prod.fst := by
          intro k' hk'
          exact hdisj k' (by simp [hk'])
        simp only [eq_false_of_ne_true hk, Bool.false_eq_true, if_false]
        rw [ih acc hnd.2 hd2]
        simp [sparseEntry, eq_false_of_ne_true hk, List.filterMap_cons]

theorem buildQuery_eq_filterMap (ps : List (String × SPVal))
    (hnd : (ps.map Prod.fst).Nodup) : buildQuery ps = ps.filterMap sparseEntry := by
  have h := buildQuery_go ps [] hnd (by intro k _; simp)
  simpa [buildQuery] using h

theorem assoc_val_unique (ps : List (String × SPVal)) (hnd : (ps.map Prod.fst).Nodup)
    (k : String) (v v' : SPVal) (h1 : (k, v) ∈ ps) (h2 : (k, v') ∈ ps) : v = v' := by
  induction ps with
  | nil => cases h1
  | cons p rest ih =>
      simp only [List.map_cons, List.nodup_cons] at hnd
      rcases List.mem_cons.mp h1 with h1 | h1 <;> rcases List.mem_cons.mp h2 with h2 | h2
      · have h3 : (k, v) = (k, v') := h1.trans h2.symm
        injection h3 with _ h4
      · exfalso
        apply hnd.1
        have hkm : k ∈ List.map Prod.fst rest := List.mem_map.mpr ⟨(k, v'), h2, rfl⟩
        rw [← h1]
        exact hkm
      · exfalso
        apply hnd.1
        have hkm : k ∈ List.map Prod.fst rest := List.mem_map.mpr ⟨(k, v), h1, rfl⟩
        rw [← h2]
        exact hkm
      · exact ih hnd.2 h1 h2

theorem sparseEntry_eq_some (kv : String × SPVal) (p : String × String)
    (h : sparseEntry kv = some p) : spKeep kv.2 = true ∧ p = (kv.1, spToString kv.2) := by
  unfold sparseEntry at h
  split at h
  · exact ⟨by assumption, (Option.some.inj h).symm⟩
  · cases h

/-- C1: in every `callApi` request, a searchParams key bound to `undefined`,
`null`, or the empty string is omitted from the query, every key bound to any
other scalar appears with the value stringified, and nothing else appears. -/
theorem callApi_sparse_query (path : String) (m : Option HttpMethod) (b : Option Jv)
    (ps : List (String × SPVal)) (hnd : (ps.map Prod.fst).Nodup) :
    (callApiRequest path { method := m, searchParams := some ps, body := b }).query
        = buildQuery ps
      ∧ (∀ k v, (k, v) ∈ ps → spKeep v = false → k ∉ (buildQuery ps).map Prod.fst)
      ∧ (∀ k v, (k, v) ∈ ps → spKeep v = true → (k, spToString v) ∈ buildQuery ps)
      ∧ (∀ p, p ∈ buildQuery ps →
          ∃ v, (p.1, v) ∈ ps ∧ spKeep v = true ∧ p.2 = spToString v) := by
  refine ⟨rfl, ?_, ?_, ?_⟩
  · intro k v hmem hdrop hk
    rw [buildQuery_eq_filterMap ps hnd] at hk
    obtain ⟨p, hp, hpk⟩ := List.mem_map.mp hk
    obtain ⟨kv, hkv, hs⟩ := List.mem_filterMap.mp hp
    obtain ⟨hkeep, hpe⟩ := sparseEntry_eq_some kv p hs
    obtain ⟨k', v'⟩ := kv
    have hk' : k' = k := by simpa [hpe] using hpk
    have := assoc_val_unique ps hnd k v v' hmem (hk' ▸ hkv)
    rw [← this] at hkeep
    rw [hkeep] at hdrop
    cases hdrop
  · intro k v hmem hkeep
    rw [buildQuery_eq_filterMap ps hnd]
    exact List.mem_filterMap.mpr ⟨(k, v), hmem, by simp [sparseEntry, hkeep]⟩
  · intro p hp
    rw [buildQuery_eq_filterMap ps hnd] at hp
    obtain ⟨kv, hkv, hs⟩ := List.mem_filterMap.mp hp
    obtain ⟨hkeep, hpe⟩ := sparseEntry_eq_some kv p hs
    exact ⟨kv.2, by simpa [hpe] using hkv, hkeep, by simp [hpe]⟩

/-- C1 witness: the spec's concrete instance
`searchParams: {q: "x", tag: undefined, maxResults: null}` yields the query
`q=x` and nothing else. -/
theorem callApi_sparse_query_witness :
    (([("q", SPVal.str "x"), ("tag", SPVal.undef), ("maxResults", SPVal.null)].map
        Prod.fst).Nodup)
      ∧ ("q", "x")
          ∈ buildQuery [("q", SPVal.str "x"), ("tag", SPVal.undef), ("maxResults", SPVal.null)]
      ∧ "tag"
          ∉ (buildQuery
              [("q", SPVal.str "x"), ("tag", SPVal.undef), ("maxResults", SPVal.null)]).map
              Prod.fst
      ∧ "maxResults"
          ∉ (buildQuery
              [("q", SPVal.str "x"), ("tag", SPVal.undef), ("maxResults", SPVal.null)]).map
              Prod.fst
      ∧ buildQuery [("q", SPVal.str "x"), ("tag", SPVal.undef), ("maxResults", SPVal.null)]
          = [("q", "x")] := by
  refine ⟨by decide, ?_, ?_, ?_, by rfl⟩
  · exact (callApi_sparse_query "/search" none none _ (by decide)).2.2.1 "q" (SPVal.str "x")
      (by decide) (by decide)
  · exact (callApi_sparse_query "/search" none none _ (by decide)).2.1 "tag" SPVal.undef
      (by decide) (by decide)
  · exact (callApi_sparse_query "/search" none none _ (by decide)).2.1 "maxResults" SPVal.null
      (by decide) (by decide)

/-- C2 counterexample: a GET `callApi` request whose options carry a truthy
body still declares the `Content-Type: application/json` header (the header
guard at line 107 tests only `options.body`, not the method), refuting "a
request issued with any other method never declares that content type". -/
theorem callApi_contentType_get_counterexample :
    (callApiRequest "/x"
        { method := some HttpMethod.GET, searchParams := none,
          body := some (Jv.str "hi") }).method = HttpMethod.GET
      ∧ (callApiRequest "/x"
          { method := some HttpMethod.GET, searchParams := none,
            body := some (Jv.str "hi") }).contentTypeJson = true := by
  exact ⟨rfl, rfl⟩

/-- C2 amended: for every call to `callApi`, the body is attached exactly when
`options.body` is truthy and the method is POST (and is then `options.body`
itself), while the JSON content type is declared exactly when `options.body`
is truthy, regardless of the method. -/
theorem callApi_body_and_contentType (path : String) (options : ApiRequestOptions) :
    ((callApiRequest path options).contentTypeJson = optBodyTruthy options.body)
      ∧ (options.method.getD HttpMethod.GET ≠ HttpMethod.POST →
          (callApiRequest path options).body = none)
      ∧ (optBodyTruthy options.body = true →
          options.method.getD HttpMethod.GET = HttpMethod.POST →
          (callApiRequest path options).body = options.body)
      ∧ (optBodyTruthy options.body = false → (callApiRequest path options).body = none) := by
  refine ⟨rfl, ?_, ?_, ?_⟩
  · intro h
    simp [callApiRequest, h]
  · intro h1 h2
    simp [callApiRequest, h1, h2]
  · intro h
    simp [callApiRequest, h]

/-- C2 amended witness: a concrete POST with truthy body attaches it, while the
same options under GET attach nothing. -/
theorem callApi_body_and_contentType_witness :
    (callApiRequest "/search"
        { method := some HttpMethod.POST, searchParams := none,
          body := some (Jv.obj [("query", Jv.str "x")]) }).body
        = some (Jv.obj [("query", Jv.str "x")])
      ∧ (callApiRequest "/search"
          { method := some HttpMethod.GET, searchParams := none,
            body := some (Jv.obj [("query", Jv.str "x")]) }).body = none := by
  constructor
  · exact (callApi_body_and_contentType "/search"
      { method := some HttpMethod.POST, searchParams := none,
        body := some (Jv.obj [("query", Jv.str "x")]) }).2.2.1 rfl rfl
  · exact (callApi_body_and_contentType "/search"
      { method := some HttpMethod.GET, searchParams := none,
        body := some (Jv.obj [("query", Jv.str "x")]) }).2.1 (by decide)

/-- C3: whenever the results list is empty, `summarizeSearchResponse` returns
exactly `No matches for "<query>".` for the response's query. -/
theorem summarize_empty_results (data : SearchResponse) (h : data.results = []) :
    summarizeSearchResponse data = "No matches for \"" ++ data.query ++ "\"." := by
  simp [summarizeSearchResponse, h]

/-- C3 witness: the spec's round-trip instance produces exactly
`No matches for "xyz".`. -/
theorem summarize_empty_results_witness :
    summarizeSearchResponse { results := [], total := 0, query := "xyz", took := 5 }
      = "No matches for \"xyz\"." := by
  rw [summarize_empty_results _ rfl]
  rfl

/-- C4 counterexample: the summary's first number is `data.total` (line 152),
not the number of results, so a response with exactly 7 results and `took` 42
but `total` 0 has a first line reading `0 result(s) ...`, not `7 result(s) ...`
as the claim requires for every such response. -/
theorem summarize_seven_counterexample :
    firstLine (summarizeSearchResponse
        { results := [⟨1, none, none, "/r", none, none, none⟩,
            ⟨2, none, none, "/r", none, none, none⟩, ⟨3, none, none, "/r", none, none, none⟩,
            ⟨4, none, none, "/r", none, none, none⟩, ⟨5, none, none, "/r", none, none, none⟩,
            ⟨6, none, none, "/r", none, none, none⟩, ⟨7, none, none, "/r", none, none, none⟩],
          total := 0, query := "q", took := 42 })
        = "0 result(s) for \"q\" (showing 5, 42ms)."
      ∧ ("0 result(s) for \"q\" (showing 5, 42ms)." : String)
          ≠ "7 result(s) for \"q\" (showing 5, 42ms)." := by
  exact ⟨rfl, by decide⟩

/-- C4 amended: for every `SearchResponse` whose `total` field is 7, whose
results list has exactly 7 entries, and whose `took` is 42, the output is the
line `7 result(s) for "<query>" (showing 5, 42ms).` followed by a newline and
the join of exactly 5 ranked lines. -/
theorem summarize_seven_results (data : SearchResponse) (h7 : data.results.length = 7)
    (htot : data.total = 7) (ht : data.took = 42) :
    summarizeSearchResponse data
        = ("7 result(s) for \"" ++ data.query ++ "\" (showing 5, 42ms).") ++ "\n" ++
          String.intercalate "\n" (summaryLines data)
      ∧ (summaryLines data).length = 5 := by
  have hlen : (summaryLines data).length = 5 := by
    simp [summaryLines, List.length_mapIdx, List.length_take, h7]
  have hne : data.results.isEmpty = false := by
    cases hres : data.results with
    | nil => rw [hres] at h7; simp at h7
    | cons a l => simp [hres]
  refine ⟨?_, hlen⟩
  simp only [summarizeSearchResponse, hne, Bool.false_eq_true, if_false]
  congr 2
  simp only [summaryHeader, hlen, htot, ht]
  rw [show (toString (7 : Int) ++ " result(s) for \"" : String) = "7 result(s) for \"" from
    rfl]
  rw [String.append_assoc ("7 result(s) for \"" ++ data.query) "\" (showing "
    (toString (5 : Nat))]
  rw [show ("\" (showing " ++ toString (5 : Nat) : String) = "\" (showing 5" from rfl]
  rw [String.append_assoc ("7 result(s) for \"" ++ data.query) "\" (showing 5" ", "]
  rw [show ("\" (showing 5" ++ ", " : String) = "\" (showing 5, " from rfl]
  rw [String.append_assoc ("7 result(s) for \"" ++ data.query) "\" (showing 5, "
    (toString (42 : Int))]
  rw [show ("\" (showing 5, " ++ toString (42 : Int) : String) = "\" (showing 5, 42" from rfl]
  rw [String.append_assoc ("7 result(s) for \"" ++ data.query) "\" (showing 5, 42" "ms)."]
  rw [show ("\" (showing 5, 42" ++ "ms)." : String) = "\" (showing 5, 42ms)." from rfl]

/-- C4 amended witness: a concrete 7-result response with `total` 7 and `took`
42 produces the claimed first line and the 5 ranked lines. -/
theorem summarize_seven_results_witness :
    summarizeSearchResponse
        { results := [⟨1, none, none, "/a", none, none, none⟩,
            ⟨2, none, none, "/b", none, none, none⟩, ⟨3, none, none, "/c", none, none, none⟩,
            ⟨4, none, none, "/d", none, none, none⟩, ⟨5, none, none, "/e", none, none, none⟩,
            ⟨6, none, none, "/f", none, none, none⟩, ⟨7, none, none, "/g", none, none, none⟩],
          total := 7, query := "q", took := 42 }
      = "7 result(s) for \"q\" (showing 5, 42ms).\n1. /a → /a\n2. /b → /b\n3. /c → /c\n4. /d → /d\n5. /e → /e" := by
  rw [(summarize_seven_results
      { results := [⟨1, none, none, "/a", none, none, none⟩,
          ⟨2, none, none, "/b", none, none, none⟩, ⟨3, none, none, "/c", none, none, none⟩,
          ⟨4, none, none, "/d", none, none, none⟩, ⟨5, none, none, "/e", none, none, none⟩,
          ⟨6, none, none, "/f", none, none, none⟩, ⟨7, none, none, "/g", none, none, none⟩],
        total := 7, query := "q", took := 42 } rfl rfl rfl).1]
  rfl

theorem digitChar_not_ws (d : Nat) (h : d < 10) : (Nat.digitChar d).isWhitespace = false := by
  interval_cases d <;> decide

theorem append_pad3_last (x : String) (m : Nat) :
    (x ++ pad3 m).data.getLast? = some (Nat.digitChar (m % 10)) := by
  simp [pad3, String.data_append, List.getLast?_append]

theorem toFixed3_last_not_ws (q : Rat) :
    ∃ d, (toFixed3 q).data.getLast? = some d ∧ d.isWhitespace = false := by
  unfold toFixed3
  exact ⟨Nat.digitChar ((jsRound3 q).natAbs % 1000 % 10), append_pad3_last _ _,
    digitChar_not_ws _ (Nat.mod_lt _ (by norm_num))⟩

theorem rank_head_not_ws (i : Nat) (hi : i < 5) :
    ∃ c, (toString (i + 1)).data.head? = some c ∧ c.isWhitespace = false := by
  interval_cases i
  · exact ⟨'1', rfl, by decide⟩
  · exact ⟨'2', rfl, by decide⟩
  · exact ⟨'3', rfl, by decide⟩
  · exact ⟨'4', rfl, by decide⟩
  · exact ⟨'5', rfl, by decide⟩

theorem data_head?_append (a b : String) (c : Char) (h : a.data.head? = some c) :
    (a ++ b).data.head? = some c := by
  rw [String.data_append]
  cases hd : a.data with
  | nil => rw [hd] at h; cases h
  | cons x t =>
      rw [hd] at h
      simp only [List.head?_cons] at h
      simp [h]

theorem data_getLast?_append (a b : String) (d : Char) (h : b.data.getLast? = some d) :
    (a ++ b).data.getLast? = some d := by
  rw [String.data_append, List.getLast?_append, h]
  rfl

theorem jsTrim_eq_self (s : String) (c d : Char)
    (h1 : s.data.head? = some c) (h2 : s.data.getLast? = some d)
    (hc : c.isWhitespace = false) (hd : d.isWhitespace = false) : jsTrim s = s := by
  obtain ⟨t, ht⟩ : ∃ t, s.data = c :: t := by
    cases hsd : s.data with
    | nil => rw [hsd] at h1; cases h1
    | cons x xs =>
        rw [hsd] at h1
        simp only [List.head?_cons] at h1
        have hxc : x = c := Option.some.inj h1
        exact ⟨xs, by rw [hxc]⟩
  obtain ⟨m, hm⟩ : ∃ m, s.data = m ++ [d] := List.getLast?_eq_some_iff.mp h2
  have key : ((s.data.dropWhile Char.isWhitespace).reverse.dropWhile
      Char.isWhitespace).reverse = s.data := by
    rw [ht, List.dropWhile_cons, hc]
    simp only [Bool.false_eq_true, if_false]
    rw [← ht, hm, List.reverse_append]
    simp only [List.reverse_cons, List.reverse_nil, List.nil_append, List.singleton_append]
    rw [List.dropWhile_cons, hd]
    simp only [Bool.false_eq_true, if_false]
    simp [List.reverse_cons, List.reverse_reverse]
  unfold jsTrim
  exact (congrArg String.mk key).trans rfl

theorem trim_space_list (l : List Char) :
    ((l ++ [' ']).dropWhile Char.isWhitespace).reverse.dropWhile Char.isWhitespace
      = (l.dropWhile Char.isWhitespace).reverse.dropWhile Char.isWhitespace := by
  rw [List.dropWhile_append]
  by_cases he : (l.dropWhile Char.isWhitespace).isEmpty = true
  · rw [if_pos he]
    have h2 : List.dropWhile Char.isWhitespace [' '] = ([] : List Char) := by decide
    rw [h2, List.isEmpty_iff.mp he]
  · rw [if_neg he, List.reverse_append]
    have h3 : ([' '] : List Char).reverse = [' '] := rfl
    rw [h3, List.singleton_append, List.dropWhile_cons]
    rw [show Char.isWhitespace ' ' = true from rfl]
    simp only [if_true]

theorem jsTrim_append_space (x : String) : jsTrim (x ++ " ") = jsTrim x := by
  unfold jsTrim
  congr 1
  congr 1
  have h := trim_space_list x.data
  rw [String.data_append]
  exact h

theorem displayTitle_eq (r : SearchResult) :
    displayTitle r =
      match r.pageTitle with
      | some t => t
      | none =>
          match r.sectionTitle with
          | some t => t
          | none => r.sectionRoute := by
  unfold displayTitle
  cases r.pageTitle <;> cases r.sectionTitle <;> rfl

theorem resultLine_eq (i : Nat) (r : SearchResult) (hi : i < 5) :
    resultLine i r =
      match r.score with
      | some q =>
          toString (i + 1) ++ ". " ++ displayTitle r ++ " → " ++ r.sectionRoute ++ " score=" ++
            toFixed3 q
      | none =>
          jsTrim (toString (i + 1) ++ ". " ++ displayTitle r ++ " → " ++ r.sectionRoute) := by
  obtain ⟨c, hch, hcw⟩ := rank_head_not_ws i hi
  cases hs : r.score with
  | none =>
      simp only [resultLine, scorePart, hs]
      rw [String.append_empty]
      exact jsTrim_append_space _
  | some q =>
      simp only [resultLine, scorePart, hs]
      obtain ⟨d, hdl, hdw⟩ := toFixed3_last_not_ws q
      have hh : (toString (i + 1) ++ ". " ++ displayTitle r ++ " → " ++ r.sectionRoute ++ " "
          ++ ("score=" ++ toFixed3 q)).data.head? = some c :=
        data_head?_append _ _ c (data_head?_append _ _ c (data_head?_append _ _ c
          (data_head?_append _ _ c (data_head?_append _ _ c
            (data_head?_append _ _ c hch)))))
      have hl : (toString (i + 1) ++ ". " ++ displayTitle r ++ " → " ++ r.sectionRoute ++ " "
          ++ ("score=" ++ toFixed3 q)).data.getLast? = some d :=
        data_getLast?_append _ _ d (data_getLast?_append _ _ d hdl)
      rw [jsTrim_eq_self _ c d hh hl hcw hdw]
      rw [String.append_assoc (toString (i + 1) ++ ". " ++ displayTitle r ++ " → " ++
        r.sectionRoute) " " ("score=" ++ toFixed3 q)]
      rw [← String.append_assoc " " "score=" (toFixed3 q)]
      rw [show (" " ++ "score=" : String) = " score=" from rfl]
      rw [← String.append_assoc (toString (i + 1) ++ ". " ++ displayTitle r ++ " → " ++
        r.sectionRoute) " score=" (toFixed3 q)]

/-- C5: for every response with a non-empty results list, the output is the
header line followed by the join of one line per result for at most the first
5 results, in service order (no re-sorting, nothing past the fifth); the line
at index `i` carries the 1-based rank `i+1`, the display title chosen by the
priority `pageTitle` then `sectionTitle` then `sectionRoute`, the result's
`sectionRoute`, and a `score=` fragment with the score to 3 decimals exactly
when the result carries a numeric score. -/
theorem summarize_ranked_lines (data : SearchResponse) (h : data.results ≠ []) :
    summarizeSearchResponse data
        = summaryHeader data (summaryLines data) ++ "\n" ++
          String.intercalate "\n" (summaryLines data)
      ∧ (summaryLines data).length = min 5 data.results.length
      ∧ (∀ r : SearchResult, displayTitle r =
          match r.pageTitle with
          | some t => t
          | none =>
              match r.sectionTitle with
              | some t => t
              | none => r.sectionRoute)
      ∧ (∀ i r, i < 5 → data.results[i]? = some r →
          (summaryLines data)[i]? = some
            (match r.score with
             | some q =>
                 toString (i + 1) ++ ". " ++ displayTitle r ++ " → " ++ r.sectionRoute ++
                   " score=" ++ toFixed3 q
             | none =>
                 jsTrim (toString (i + 1) ++ ". " ++ displayTitle r ++ " → " ++
                   r.sectionRoute))) := by
  refine ⟨?_, ?_, displayTitle_eq, ?_⟩
  · have hne : data.results.isEmpty = false := by
      cases hres : data.results with
      | nil => exact absurd hres h
      | cons a l => rfl
    simp only [summarizeSearchResponse, hne, Bool.false_eq_true, if_false]
  · simp only [summaryLines, List.length_mapIdx, List.length_take]
  · intro i r hi hr
    have hl : (summaryLines data)[i]? = some (resultLine i r) := by
      simp [summaryLines, List.getElem?_mapIdx, List.getElem?_take, hi, hr]
    rw [hl, resultLine_eq i r hi]

/-- C5 witness: on a concrete two-result response the first ranked line is
`1. T → /r` (rank, pageTitle-priority title, route, no score fragment). -/
theorem summarize_ranked_lines_witness :
    (summaryLines
        { results := [⟨1, some "T", none, "/r", none, none, none⟩,
            ⟨2, none, some "S", "/s", none, none, none⟩],
          total := 2, query := "q", took := 3 })[0]?
      = some "1. T → /r" := by
  exact (summarize_ranked_lines
    { results := [⟨1, some "T", none, "/r", none, none, none⟩,
        ⟨2, none, some "S", "/s", none, none, none⟩],
      total := 2, query := "q", took := 3 } (by simp)).2.2.2 0 _ (by norm_num) rfl

/-- C6: on every non-success HTTP response, `callApi` fails with a message
containing the resolved URL, the status code, and the body text when non-empty,
otherwise the status's reason phrase. -/
theorem callApi_http_error (parseJson : String → Except String Jv) (url : String)
    (resp : HttpResponse) (h : resp.ok = false) :
    ∃ msg, handleResponse parseJson url resp = Except.error msg
      ∧ strContains msg url
      ∧ strContains msg (toString resp.status)
      ∧ (resp.text ≠ "" → strContains msg resp.text)
      ∧ (resp.text = "" → strContains msg resp.statusText) := by
  refine ⟨"Request to " ++ url ++ " failed with status " ++ toString resp.status ++ ": " ++
      (if resp.text = "" then resp.statusText else resp.text), ?_, ?_, ?_, ?_, ?_⟩
  · simp [handleResponse, h]
  · exact ⟨"Request to ", " failed with status " ++ toString resp.status ++ ": " ++
      (if resp.text = "" then resp.statusText else resp.text), by
        simp [String.append_assoc]⟩
  · exact ⟨"Request to " ++ url ++ " failed with status ", ": " ++
      (if resp.text = "" then resp.statusText else resp.text), by
        simp [String.append_assoc]⟩
  · intro ht
    exact ⟨"Request to " ++ url ++ " failed with status " ++ toString resp.status ++ ": ", "",
      by simp [String.append_assoc, String.append_empty, if_neg ht]⟩
  · intro ht
    exact ⟨"Request to " ++ url ++ " failed with status " ++ toString resp.status ++ ": ", "",
      by simp [String.append_assoc, String.append_empty, if_pos ht]⟩

/-- C6 witness: a simulated 500 response with body `boom` fails with a message
carrying the URL, `500`, and `boom`. -/
theorem callApi_http_error_witness :
    ∃ msg, handleResponse (fun _ => Except.error "ignored") "https://api.example/search"
        ⟨false, 500, "Internal Server Error", "boom"⟩ = Except.error msg
      ∧ strContains msg "https://api.example/search"
      ∧ strContains msg (toString (500 : Nat))
      ∧ ("boom" ≠ "" → strContains msg "boom")
      ∧ ("boom" = "" → strContains msg "Internal Server Error") := by
  exact callApi_http_error _ _ _ rfl

/-- C7: on every success response, an empty body yields the `undefined`
sentinel without parsing; a non-empty body is parsed, a parse failure raising
an error whose message carries the URL and the parser diagnostic, success
returning the parsed value. -/
theorem callApi_success_parse (parseJson : String → Except String Jv) (url : String)
    (resp : HttpResponse) (h : resp.ok = true) :
    (resp.text = "" → handleResponse parseJson url resp = Except.ok none)
      ∧ (∀ v, resp.text ≠ "" → parseJson resp.text = Except.ok v →
          handleResponse parseJson url resp = Except.ok (some v))
      ∧ (∀ e, resp.text ≠ "" → parseJson resp.text = Except.error e →
          ∃ msg, handleResponse parseJson url resp = Except.error msg
            ∧ strContains msg url ∧ strContains msg e) := by
  refine ⟨?_, ?_, ?_⟩
  · intro ht
    simp [handleResponse, h, ht]
  · intro v ht hp
    simp [handleResponse, h, ht, hp]
  · intro e ht hp
    refine ⟨"Failed to parse JSON response from " ++ url ++ ": " ++ e, ?_, ?_, ?_⟩
    · simp [handleResponse, h, ht, hp]
    · exact ⟨"Failed to parse JSON response from ", ": " ++ e, by simp [String.append_assoc]⟩
    · exact ⟨"Failed to parse JSON response from " ++ url ++ ": ", "", by
        simp [String.append_assoc, String.append_empty]⟩

/-- C7 witness: with a toy parser accepting exactly `x`, an empty body returns
the sentinel, body `x` parses, and body `y` fails with the URL and the
diagnostic in the message. -/
theorem callApi_success_parse_witness :
    (handleResponse (fun s => if s = "x" then Except.ok (Jv.num 1) else Except.error "bad")
        "u" ⟨true, 200, "OK", ""⟩ = Except.ok none)
      ∧ (handleResponse (fun s => if s = "x" then Except.ok (Jv.num 1) else Except.error "bad")
          "u" ⟨true, 200, "OK", "x"⟩ = Except.ok (some (Jv.num 1)))
      ∧ (∃ msg, handleResponse
            (fun s => if s = "x" then Except.ok (Jv.num 1) else Except.error "bad")
            "u" ⟨true, 200, "OK", "y"⟩ = Except.error msg
          ∧ strContains msg "u" ∧ strContains msg "bad") := by
  refine ⟨?_, ?_, ?_⟩
  · exact (callApi_success_parse _ _ _ rfl).1 rfl
  · exact (callApi_success_parse _ _ _ rfl).2.1 (Jv.num 1) (by decide) rfl
  · exact (callApi_success_parse _ _ _ rfl).2.2 "bad" (by decide) rfl

/-- C8: every route not starting with `/` is rejected by the `dcs-get-content`
input schema before the handler runs: the invocation yields the schema error
and never an outbound request. -/
theorem getContent_invalid_route (route : String) (h : route.data.head? ≠ some '/') :
    dcsGetContentInvoke route = Except.error "route must start with /"
      ∧ ∀ spec, dcsGetContentInvoke route ≠ Except.ok spec := by
  have ha : routeSchemaAccepts route = false := by
    cases hd : route.data with
    | nil => simp [routeSchemaAccepts, hd]
    | cons c t =>
        have hc : c ≠ '/' := by
          rw [hd] at h
          simpa using h
        simp [routeSchemaAccepts, hd, hc]
  have he : dcsGetContentInvoke route = Except.error "route must start with /" := by
    simp [dcsGetContentInvoke, ha]
  exact ⟨he, fun spec hok => by rw [he] at hok; cases hok⟩

/-- C8 witness: the concrete route `docs/intro` is rejected with the schema
error. -/
theorem getContent_invalid_route_witness :
    dcsGetContentInvoke "docs/intro" = Except.error "route must start with /" :=
  (getContent_invalid_route "docs/intro" (by decide)).1

/-- C9: a valid `dcs-search` invocation issues its single request as POST
`/search` with the JSON body `{query, tag, maxResults}` (absent fields omitted
by serialisation) when `method` is `post`, and otherwise as GET `/search` with
the same fields as the sparse query parameters `q`, `tag`, `maxResults`. -/
theorem dcsSearch_dispatch (query : String) (tag : Option String) (maxResults : Option Int)
    (method : SearchMethod) (hv : dcsSearchArgsValid query maxResults = true) :
    (method = SearchMethod.post →
        dcsSearchRequest query tag maxResults method =
          { path := "/search", query := [], method := HttpMethod.POST,
            contentTypeJson := true,
            body := some (searchPayload query tag maxResults) })
      ∧ (method = SearchMethod.get →
          (dcsSearchRequest query tag maxResults method).path = "/search"
            ∧ (dcsSearchRequest query tag maxResults method).method = HttpMethod.GET
            ∧ (dcsSearchRequest query tag maxResults method).body = none
            ∧ (dcsSearchRequest query tag maxResults method).contentTypeJson = false
            ∧ (dcsSearchRequest query tag maxResults method).query =
                [("q", query)]
                  ++ (match tag with
                      | some t => if t = "" then [] else [("tag", t)]
                      | none => [])
                  ++ (match maxResults with
                      | some n => [("maxResults", toString n)]
                      | none => [])) := by
  have hq : query ≠ "" := by
    simp only [dcsSearchArgsValid, Bool.and_eq_true, decide_eq_true_eq] at hv
    exact hv.1
  constructor
  · intro h
    subst h
    simp [dcsSearchRequest, callApiRequest, optBodyTruthy, jvTruthy, searchPayload]
  · intro h
    subst h
    refine ⟨rfl, rfl, rfl, rfl, ?_⟩
    show buildQuery [("q", SPVal.str query), ("tag", optStrSP tag),
      ("maxResults", optIntSP maxResults)] = _
    rw [buildQuery_eq_filterMap [("q", SPVal.str query), ("tag", optStrSP tag),
      ("maxResults", optIntSP maxResults)] (by
        show (["q", "tag", "maxResults"] : List String).Nodup
        decide)]
    cases tag with
    | none =>
        cases maxResults with
        | none => simp [sparseEntry, spKeep, spToString, optStrSP, optIntSP, hq]
        | some n => simp [sparseEntry, spKeep, spToString, optStrSP, optIntSP, hq]
    | some t =>
        by_cases htt : t = "" <;> cases maxResults <;>
          simp [sparseEntry, spKeep, spToString, optStrSP, optIntSP, hq, htt]

/-- C9 witness: `query = "x"`, `tag = "t"`, `maxResults = 5` issues the POST
body on `post` and the query parameters `q=x`, `tag=t`, `maxResults=5` on
`get`. -/
theorem dcsSearch_dispatch_witness :
    (dcsSearchRequest "x" (some "t") (some 5) SearchMethod.post =
        { path := "/search", query := [], method := HttpMethod.POST, contentTypeJson := true,
          body := some (searchPayload "x" (some "t") (some 5)) })
      ∧ (dcsSearchRequest "x" (some "t") (some 5) SearchMethod.get).query
          = [("q", "x")] ++ [("tag", "t")] ++ [("maxResults", toString (5 : Int))] := by
  constructor
  · exact (dcsSearch_dispatch "x" (some "t") (some 5) SearchMethod.post (by decide)).1 rfl
  · exact ((dcsSearch_dispatch "x" (some "t") (some 5) SearchMethod.get (by decide)).2
      rfl).2.2.2.2

/-- C10: the base URL is resolved as `DCS_BASE_URL`, else
`DOCUSAURUS_SEARCH_BASE_URL`, else the hard-coded default; no other
environment variable influences the result, so `PDFDANCER_DOCS_BASE_URL`
alone leaves the default in effect. -/
theorem baseUrl_resolution (env : String → Option String) :
    (∀ s, env "DCS_BASE_URL" = some s → rawBaseUrl env = s)
      ∧ (env "DCS_BASE_URL" = none → ∀ s, env "DOCUSAURUS_SEARCH_BASE_URL" = some s →
          rawBaseUrl env = s)
      ∧ (env "DCS_BASE_URL" = none → env "DOCUSAURUS_SEARCH_BASE_URL" = none →
          rawBaseUrl env = defaultBaseUrl)
      ∧ (∀ env2 : String → Option String,
          env "DCS_BASE_URL" = env2 "DCS_BASE_URL" →
          env "DOCUSAURUS_SEARCH_BASE_URL" = env2 "DOCUSAURUS_SEARCH_BASE_URL" →
          rawBaseUrl env = rawBaseUrl env2) := by
  refine ⟨?_, ?_, ?_, ?_⟩
  · intro s hs
    simp [rawBaseUrl, hs]
  · intro h1 s h2
    simp [rawBaseUrl, h1, h2]
  · intro h1 h2
    simp [rawBaseUrl, h1, h2]
  · intro env2 h1 h2
    simp [rawBaseUrl, h1, h2]

/-- C10 witness: an environment that sets only `PDFDANCER_DOCS_BASE_URL`
resolves to the hard-coded default. -/
theorem baseUrl_resolution_witness :
    rawBaseUrl
        (fun k => if k = "PDFDANCER_DOCS_BASE_URL" then some "http://elsewhere" else none)
      = defaultBaseUrl := by
  exact (baseUrl_resolution _).2.2.1 rfl rfl
